import Mathlib

/-!
Shallow embedding of the rural-water-analytics core engines
(src/nrw/water_balance.py, src/nrw/mnf_analysis.py, src/nrw/leak_detection.py,
src/energy/efficiency_analysis.py, src/energy/pump_scheduling.py).

Python floats are embedded as exact rationals; the builtin round
(round-half-to-even, to n decimal places) is modelled by pyRound.
Calendar dates are embedded as integer day numbers, and wall-clock timestamps
as an explicit integer parameter passed to the engines that stamp their
results via a datetime.now default factory.
-/

namespace RWA

/-- Round-half-to-even to the nearest integer, matching the tie behaviour of
the Python builtin round. -/
def rndHalfEven (q : ℚ) : ℤ :=
  let f := ⌊q⌋
  let r := q - f
  if r < 1/2 then f
  else if 1/2 < r then f + 1
  else if f % 2 = 0 then f else f + 1

/-- Model of the Python builtin round(q, n): round-half-to-even to n decimal
places, in exact rational arithmetic. -/
def pyRound (q : ℚ) (n : ℕ) : ℚ := (rndHalfEven (q * 10 ^ n) : ℚ) / 10 ^ n

/-- Errors raised by the engines. insufficientData models the
ValueError raised at mnf_analysis.py line 108 when fewer than 24 hourly
readings are supplied (the spec taxonomy calls it InsufficientDataError);
zeroDivision models the ZeroDivisionError that Python raises when
analyze_leak_indicators divides by len(mnf_values) for an empty list. -/
inductive CalcError where
  | insufficientData
  | zeroDivision
deriving DecidableEq

/-! ## Water balance (src/nrw/water_balance.py) -/

/-- Input record of calculate_water_balance, water_balance.py lines 16-50. -/
structure WaterBalanceInput where
  system_input_volume : ℚ
  billed_metered_consumption : ℚ
  billed_unmetered_consumption : ℚ
  unbilled_metered_consumption : ℚ
  unbilled_unmetered_consumption : ℚ
  unauthorized_consumption : ℚ
  meter_inaccuracies : ℚ
  period_start : ℤ
  period_end : ℤ
deriving DecidableEq

/-- Pydantic field constraints of WaterBalanceInput: system input strictly
positive, all consumption and loss estimates non-negative. -/
def WaterBalanceInput.Valid (i : WaterBalanceInput) : Prop :=
  0 < i.system_input_volume ∧
  0 ≤ i.billed_metered_consumption ∧
  0 ≤ i.billed_unmetered_consumption ∧
  0 ≤ i.unbilled_metered_consumption ∧
  0 ≤ i.unbilled_unmetered_consumption ∧
  0 ≤ i.unauthorized_consumption ∧
  0 ≤ i.meter_inaccuracies

instance (i : WaterBalanceInput) : Decidable i.Valid := by
  unfold WaterBalanceInput.Valid; infer_instance

/-- Stored fields of the WaterBalance result model, water_balance.py
lines 53-131; the computed fields are modelled as functions below. -/
structure WaterBalance where
  system_input_volume : ℚ
  billed_authorized_consumption : ℚ
  unbilled_authorized_consumption : ℚ
  apparent_losses : ℚ
  real_losses : ℚ
  period_start : ℤ
  period_end : ℤ
  period_days : ℤ
deriving DecidableEq

/-- Computed field authorized_consumption. -/
def WaterBalance.authorized_consumption (w : WaterBalance) : ℚ :=
  w.billed_authorized_consumption + w.unbilled_authorized_consumption

/-- Computed field water_losses. -/
def WaterBalance.water_losses (w : WaterBalance) : ℚ :=
  w.apparent_losses + w.real_losses

/-- Computed field revenue_water. -/
def WaterBalance.revenue_water (w : WaterBalance) : ℚ :=
  w.billed_authorized_consumption

/-- Computed field non_revenue_water. -/
def WaterBalance.non_revenue_water (w : WaterBalance) : ℚ :=
  w.system_input_volume - w.revenue_water

/-- Computed field nrw_percentage. -/
def WaterBalance.nrw_percentage (w : WaterBalance) : ℚ :=
  if w.system_input_volume = 0 then 0
  else pyRound (w.non_revenue_water / w.system_input_volume * 100) 2

/-- calculate_water_balance, water_balance.py lines 134-194. -/
def calculate_water_balance (input_data : WaterBalanceInput) : WaterBalance :=
  let billed_authorized :=
    input_data.billed_metered_consumption + input_data.billed_unmetered_consumption
  let unbilled_authorized :=
    input_data.unbilled_metered_consumption + input_data.unbilled_unmetered_consumption
  let apparent_losses :=
    input_data.unauthorized_consumption + input_data.meter_inaccuracies
  let total_authorized := billed_authorized + unbilled_authorized
  let real_losses :=
    max 0 (input_data.system_input_volume - total_authorized - apparent_losses)
  { system_input_volume := input_data.system_input_volume
    billed_authorized_consumption := billed_authorized
    unbilled_authorized_consumption := unbilled_authorized
    apparent_losses := apparent_losses
    real_losses := real_losses
    period_start := input_data.period_start
    period_end := input_data.period_end
    period_days := input_data.period_end - input_data.period_start + 1 }

/-! ## Minimum night flow analysis (src/nrw/mnf_analysis.py) -/

/-- Confidence levels returned by assess_confidence (the source uses the
strings high, medium, low). -/
inductive Confidence where
  | low
  | medium
  | high
deriving DecidableEq

/-- Ordering rank with high above medium above low. -/
def Confidence.rank : Confidence → ℕ
  | .low => 0
  | .medium => 1
  | .high => 2

/-- Stored fields of the MNFResult model, mnf_analysis.py lines 20-49. -/
structure MNFResult where
  minimum_flow_m3h : ℚ
  mnf_hour : ℕ
  average_night_flow_m3h : ℚ
  estimated_legitimate_night_use_m3h : ℚ
  estimated_background_leakage_m3h : ℚ
  estimated_daily_leakage_m3 : ℚ
  service_connections : ℤ
  average_pressure_m : ℚ
  night_day_ratio : ℚ
  confidence : Confidence
deriving DecidableEq

/-- assess_confidence, mnf_analysis.py lines 166-211. -/
def assess_confidence (minimum_flow average_night_flow night_day_ratio : ℚ)
    (service_connections : ℤ) : Confidence :=
  let p_conn : ℤ :=
    if service_connections < 200 then 15
    else if service_connections < 500 then 5
    else 0
  let p_ratio : ℤ :=
    if night_day_ratio > 0.4 then 20
    else if night_day_ratio > 0.3 then 10
    else 0
  let variance : ℚ :=
    if minimum_flow > 0 then |average_night_flow - minimum_flow| / minimum_flow else 0
  let p_var : ℤ :=
    if variance > 0.3 then 15
    else if variance > 0.2 then 5
    else 0
  let score : ℤ := 100 - p_conn - p_ratio - p_var
  if score ≥ 80 then .high
  else if score ≥ 60 then .medium
  else .low

/-- analyze_minimum_night_flow, mnf_analysis.py lines 81-163.  The MNF
window flows[2:4] has two entries, so its minimum is min of the two and
the Python list.index method picks hour 2 exactly when flows[2] attains it. -/
def analyze_minimum_night_flow (hourly_flows : List ℚ) (service_connections : ℤ)
    (average_pressure legitimate_night_use_lph : ℚ) : Except CalcError MNFResult :=
  if hourly_flows.length < 24 then .error .insufficientData
  else
    let flows := hourly_flows.take 24
    let w0 := flows.getD 2 0
    let w1 := flows.getD 3 0
    let minimum_flow := min w0 w1
    let mnf_hour : ℕ := if w0 ≤ w1 then 2 else 3
    let night_flows := (flows.drop 1).take 4
    let average_night_flow := night_flows.sum / (night_flows.length : ℚ)
    let day_flows := (flows.drop 6).take 16
    let average_day_flow := day_flows.sum / (day_flows.length : ℚ)
    let night_day_ratio :=
      if average_day_flow > 0 then average_night_flow / average_day_flow else 1
    let legitimate_use_m3h := legitimate_night_use_lph * (service_connections : ℚ) / 1000
    let background_leakage := max 0 (minimum_flow - legitimate_use_m3h)
    let night_day_factor : ℚ := 1.25
    let daily_leakage := background_leakage * 24 * night_day_factor
    let confidence :=
      assess_confidence minimum_flow average_night_flow night_day_ratio service_connections
    .ok
      { minimum_flow_m3h := pyRound minimum_flow 3
        mnf_hour := mnf_hour
        average_night_flow_m3h := pyRound average_night_flow 3
        estimated_legitimate_night_use_m3h := pyRound legitimate_use_m3h 3
        estimated_background_leakage_m3h := pyRound background_leakage 3
        estimated_daily_leakage_m3 := pyRound daily_leakage 2
        service_connections := service_connections
        average_pressure_m := average_pressure
        night_day_ratio := pyRound night_day_ratio 3
        confidence := confidence }

/-! ## Leak indicator analysis (src/nrw/leak_detection.py) -/

/-- MNF trend direction (the source uses the strings increasing, stable,
decreasing). -/
inductive Trend where
  | increasing
  | stable
  | decreasing
deriving DecidableEq

/-- LeakPriority enum, leak_detection.py lines 15-21. -/
inductive LeakPriority where
  | critical
  | high
  | medium
  | low
deriving DecidableEq

/-- Stored fields of the LeakAnalysis model, leak_detection.py lines 24-59.
infrastructure_leakage_index is a Python float that can be inf; it is
embedded as Option rationals with none standing for positive infinity.
analysis_timestamp is filled from a datetime.now default factory; it is
embedded as the integer clock reading passed to the engine. -/
structure LeakAnalysis where
  zone_id : String
  analysis_timestamp : ℤ
  average_mnf_m3h : ℚ
  mnf_trend : Trend
  mnf_trend_slope : ℚ
  pipe_length_km : ℚ
  service_connections : ℤ
  leakage_rate_m3_km_day : ℚ
  infrastructure_leakage_index : Option ℚ
  priority : LeakPriority
  risk_score : ℚ
  recommended_actions : List String
deriving DecidableEq

/-- Copy of a LeakAnalysis with the timestamp replaced. -/
def LeakAnalysis.withTimestamp (a : LeakAnalysis) (t : ℤ) : LeakAnalysis :=
  { a with analysis_timestamp := t }

/-- UARL approximation used at leak_detection.py line 122:
(18 x pipe length + 0.8 x connections) x pressure, in liters per day. -/
def uarl_lpd (pipe_length_km : ℚ) (service_connections : ℤ) (system_pressure : ℚ) : ℚ :=
  (18 * pipe_length_km + 0.8 * (service_connections : ℚ)) * system_pressure

/-- CARL used at leak_detection.py line 123: average MNF converted to liters
per day. -/
def carl_lpd (average_mnf : ℚ) : ℚ := average_mnf * 24 * 1000

/-- ILI at leak_detection.py line 125: CARL over UARL when UARL is positive,
otherwise the Python float inf, embedded as none. -/
def leak_ili (carl uarl : ℚ) : Option ℚ :=
  if uarl > 0 then some (carl / uarl) else none

/-- Comparison of the possibly-infinite ILI against a finite bound; the
Python float inf compares greater than every finite value. -/
def iliGT (ili : Option ℚ) (c : ℚ) : Bool :=
  match ili with
  | none => true
  | some x => decide (x > c)

/-- Comparison of the possibly-infinite ILI below a finite bound. -/
def iliLT (ili : Option ℚ) (c : ℚ) : Bool :=
  match ili with
  | none => false
  | some x => decide (x < c)

/-- Denominator of the ordinary least squares slope at leak_detection.py
line 104: sum of squared deviations of the indices 0..n-1 from their mean. -/
def regression_denominator (n : ℕ) : ℚ :=
  ((List.range n).map (fun i => ((i : ℚ) - ((n : ℚ) - 1) / 2) ^ 2)).sum

/-- calculate_risk_score, leak_detection.py lines 153-198.  When the ILI is
the float inf the final branch computes min(100, 60 + (inf - 8) * 5) = 100. -/
def calculate_risk_score (ili : Option ℚ) (trend : Trend) (slope leakage_rate : ℚ) : ℚ :=
  let ili_score : ℚ :=
    match ili with
    | none => 100
    | some x =>
      if x < 2 then 10
      else if x < 4 then 30
      else if x < 8 then 60
      else min 100 (60 + (x - 8) * 5)
  let trend_score : ℚ :=
    match trend with
    | .decreasing => 10
    | .stable => 30
    | .increasing => min 100 (50 + |slope| * 500)
  let rate_score : ℚ :=
    if leakage_rate < 10 then 20
    else if leakage_rate < 20 then 40
    else if leakage_rate < 30 then 60
    else min 100 (60 + (leakage_rate - 30) * 2)
  ili_score * 0.40 + trend_score * 0.25 + rate_score * 0.35

/-- determine_priority, leak_detection.py lines 201-210. -/
def determine_priority (risk_score : ℚ) (trend : Trend) : LeakPriority :=
  if risk_score ≥ 75 ∨ (risk_score ≥ 60 ∧ trend = .increasing) then .critical
  else if risk_score ≥ 50 then .high
  else if risk_score ≥ 30 then .medium
  else .low

/-- generate_recommendations, leak_detection.py lines 213-254.  The one
formatted message renders its number through pyRound in place of the Python
fixed-point formatting. -/
def generate_recommendations (ili : Option ℚ) (trend : Trend)
    (leakage_rate risk_score : ℚ) : List String :=
  let r1 : List String :=
    if risk_score ≥ 75 then ["URGENT: Schedule immediate leak detection survey"] else []
  let r2 : List String :=
    if iliGT ili 8 then
      ["High ILI indicates significant unreported breaks - consider acoustic leak detection"]
    else if iliGT ili 4 then
      ["Moderate ILI - systematic leak survey recommended within 30 days"]
    else []
  let r3 : List String :=
    if trend = .increasing then
      ["Increasing MNF trend suggests developing leaks - monitor closely and investigate"]
    else []
  let r4 : List String :=
    if leakage_rate > 30 then
      ["Leakage rate of " ++ toString (pyRound leakage_rate 1) ++
        " m³/km/day exceeds benchmark - prioritize this zone for detection"]
    else []
  let recommendations := r1 ++ r2 ++ r3 ++ r4
  if recommendations = [] then
    ["Continue routine monitoring - no immediate action required"]
  else recommendations

/-- analyze_leak_indicators, leak_detection.py lines 72-150.  The only
fallible step is the average over mnf_values, which divides by the length
and raises ZeroDivisionError on an empty list; every later division is
guarded in the source. -/
def analyze_leak_indicators (zone_id : String) (mnf_values : List ℚ)
    (system_pressure pipe_length_km : ℚ) (service_connections : ℤ)
    (now : ℤ) : Except CalcError LeakAnalysis :=
  if mnf_values.length = 0 then .error .zeroDivision
  else
    let n := mnf_values.length
    let average_mnf := mnf_values.sum / (n : ℚ)
    let x_mean : ℚ := ((n : ℚ) - 1) / 2
    let y_mean := average_mnf
    let numerator :=
      (mnf_values.enum.map (fun p => ((p.1 : ℚ) - x_mean) * (p.2 - y_mean))).sum
    let denominator := regression_denominator n
    let slope := if denominator ≠ 0 then numerator / denominator else 0
    let trend : Trend :=
      if slope > 0.01 then .increasing
      else if slope < -0.01 then .decreasing
      else .stable
    let daily_leakage_m3 := average_mnf * 24
    let leakage_rate := if pipe_length_km > 0 then daily_leakage_m3 / pipe_length_km else 0
    let uarl := uarl_lpd pipe_length_km service_connections system_pressure
    let carl := carl_lpd average_mnf
    let ili := leak_ili carl uarl
    let risk_score := min 100 (calculate_risk_score ili trend slope leakage_rate)
    let priority := determine_priority risk_score trend
    let recommendations := generate_recommendations ili trend leakage_rate risk_score
    .ok
      { zone_id := zone_id
        analysis_timestamp := now
        average_mnf_m3h := pyRound average_mnf 3
        mnf_trend := trend
        mnf_trend_slope := pyRound slope 4
        pipe_length_km := pipe_length_km
        service_connections := service_connections
        leakage_rate_m3_km_day := pyRound leakage_rate 2
        infrastructure_leakage_index := ili.map (fun q => pyRound q 2)
        priority := priority
        risk_score := pyRound risk_score 1
        recommended_actions := recommendations }

/-! ## Pump efficiency analysis (src/energy/efficiency_analysis.py) -/

/-- Input record of analyze_pump_efficiency, efficiency_analysis.py
lines 23-39. -/
structure PumpEfficiencyInput where
  pump_id : String
  flow_rate_m3h : ℚ
  discharge_pressure_m : ℚ
  suction_pressure_m : ℚ
  power_consumption_kw : ℚ
  rated_efficiency : ℚ
deriving DecidableEq

/-- Pydantic field constraints of PumpEfficiencyInput. -/
def PumpEfficiencyInput.Valid (i : PumpEfficiencyInput) : Prop :=
  0 < i.flow_rate_m3h ∧ 0 < i.discharge_pressure_m ∧ 0 ≤ i.suction_pressure_m ∧
  0 < i.power_consumption_kw ∧ 0 < i.rated_efficiency ∧ i.rated_efficiency ≤ 1

instance (i : PumpEfficiencyInput) : Decidable i.Valid := by
  unfold PumpEfficiencyInput.Valid; infer_instance

/-- Efficiency rating literals of the EfficiencyReport model. -/
inductive EfficiencyRating where
  | excellent
  | good
  | fair
  | poor
deriving DecidableEq

/-- Stored fields of the EfficiencyReport model, efficiency_analysis.py
lines 42-93; computed fields are modelled as functions.  The timestamp is
the integer clock reading passed to the engine. -/
structure EfficiencyReport where
  pump_id : String
  analysis_timestamp : ℤ
  flow_rate_m3h : ℚ
  total_head_m : ℚ
  power_consumption_kw : ℚ
  hydraulic_power_kw : ℚ
  wire_to_water_efficiency : ℚ
  rated_efficiency : ℚ
  specific_energy_kwh_m3 : ℚ
  efficiency_rating : EfficiencyRating
  degradation_percentage : ℚ
  maintenance_recommended : Bool
  recommendations : List String
deriving DecidableEq

/-- Copy of an EfficiencyReport with the timestamp replaced. -/
def EfficiencyReport.withTimestamp (r : EfficiencyReport) (t : ℤ) : EfficiencyReport :=
  { r with analysis_timestamp := t }

/-- Total dynamic head, efficiency_analysis.py line 117. -/
def total_head_of (i : PumpEfficiencyInput) : ℚ :=
  i.discharge_pressure_m - i.suction_pressure_m

/-- Hydraulic power in kW, efficiency_analysis.py lines 120-125, with the
constants WATER_DENSITY = 1000 and GRAVITY = 9.81. -/
def hydraulic_power_kw_of (i : PumpEfficiencyInput) : ℚ :=
  1000 * 9.81 * (i.flow_rate_m3h / 3600) * total_head_of i / 1000

/-- Wire-to-water efficiency, efficiency_analysis.py line 128. -/
def wire_to_water_of (i : PumpEfficiencyInput) : ℚ :=
  hydraulic_power_kw_of i / i.power_consumption_kw

/-- Degradation from rated efficiency in percent, efficiency_analysis.py
lines 134-136. -/
def degradation_of (i : PumpEfficiencyInput) : ℚ :=
  (i.rated_efficiency - wire_to_water_of i) / i.rated_efficiency * 100

/-- Ratio of actual to rated efficiency as used for the rating decision,
efficiency_analysis.py line 139. -/
def efficiency_ratio_of (i : PumpEfficiencyInput) : ℚ :=
  wire_to_water_of i / i.rated_efficiency

/-- generate_efficiency_recommendations, efficiency_analysis.py
lines 177-227, with pyRound in place of the Python fixed-point number
formatting. -/
def generate_efficiency_recommendations (actual_efficiency rated_efficiency
    efficiency_ratio degradation specific_energy : ℚ) : List String :=
  let r1 : List String :=
    if efficiency_ratio < 0.70 then
      ["CRITICAL: Efficiency below 70% of rated - pump rebuild or replacement should be evaluated"]
    else if efficiency_ratio < 0.80 then
      ["Significant efficiency loss detected - schedule maintenance inspection within 30 days"]
    else if efficiency_ratio < 0.90 then
      ["Minor efficiency degradation - monitor trend and include in next scheduled maintenance"]
    else []
  let r2 : List String :=
    if degradation > 20 then
      ["Check for worn impeller, excessive clearances, or mechanical seal issues"]
    else []
  let r3 : List String :=
    if specific_energy > 0.5 then
      ["Specific energy of " ++ toString (pyRound specific_energy 3) ++
        " kWh/m³ is high - verify pump is properly sized for current operating conditions"]
    else []
  let r4 : List String :=
    if actual_efficiency < 0.5 then
      ["Operating efficiency below 50% - consider VFD installation or pump resizing"]
    else []
  let recommendations := r1 ++ r2 ++ r3 ++ r4
  if recommendations = [] then
    ["Pump operating within acceptable parameters - continue routine monitoring"]
  else recommendations

/-- analyze_pump_efficiency, efficiency_analysis.py lines 96-174.
The rated_efficiency hint is ignored here because rated_efficiency is
strictly positive by the pydantic constraint, matching the unguarded
divisions of the source. -/
def analyze_pump_efficiency (input_data : PumpEfficiencyInput) (now : ℤ) :
    EfficiencyReport :=
  let total_head := total_head_of input_data
  let hydraulic_power_kw := hydraulic_power_kw_of input_data
  let wire_to_water := wire_to_water_of input_data
  let specific_energy := input_data.power_consumption_kw / input_data.flow_rate_m3h
  let degradation := degradation_of input_data
  let efficiency_ratio := efficiency_ratio_of input_data
  let rating : EfficiencyRating :=
    if efficiency_ratio ≥ 0.95 then .excellent
    else if efficiency_ratio ≥ 0.85 then .good
    else if efficiency_ratio ≥ 0.70 then .fair
    else .poor
  let maintenance_needed := efficiency_ratio < 0.80 ∨ degradation > 15
  let recommendations :=
    generate_efficiency_recommendations wire_to_water input_data.rated_efficiency
      efficiency_ratio degradation specific_energy
  { pump_id := input_data.pump_id
    analysis_timestamp := now
    flow_rate_m3h := input_data.flow_rate_m3h
    total_head_m := pyRound total_head 2
    power_consumption_kw := input_data.power_consumption_kw
    hydraulic_power_kw := pyRound hydraulic_power_kw 2
    wire_to_water_efficiency := pyRound wire_to_water 3
    rated_efficiency := input_data.rated_efficiency
    specific_energy_kwh_m3 := pyRound specific_energy 3
    efficiency_rating := rating
    degradation_percentage := pyRound degradation 1
    maintenance_recommended := decide maintenance_needed
    recommendations := recommendations }

/-! ## Pump schedule optimization (src/energy/pump_scheduling.py) -/

/-- Input record of optimize_pump_schedule, pump_scheduling.py lines 20-42.
The demand and rate forecasts are the raw lists of the request; the
pydantic length-24 bounds are captured by Valid below. -/
structure ScheduleOptimizationRequest where
  pump_id : String
  tank_capacity_m3 : ℚ
  tank_current_level_m3 : ℚ
  tank_min_level_m3 : ℚ
  pump_flow_rate_m3h : ℚ
  pump_power_kw : ℚ
  demand_forecast_m3h : List ℚ
  electricity_rates : List ℚ
  optimization_date : ℤ
deriving DecidableEq

/-- Pydantic field constraints of ScheduleOptimizationRequest. -/
def ScheduleOptimizationRequest.Valid (r : ScheduleOptimizationRequest) : Prop :=
  0 < r.tank_capacity_m3 ∧ 0 ≤ r.tank_current_level_m3 ∧ 0 ≤ r.tank_min_level_m3 ∧
  0 < r.pump_flow_rate_m3h ∧ 0 < r.pump_power_kw ∧
  r.demand_forecast_m3h.length = 24 ∧ r.electricity_rates.length = 24

instance (r : ScheduleOptimizationRequest) : Decidable r.Valid := by
  unfold ScheduleOptimizationRequest.Valid; infer_instance

/-- Indexed access into the demand forecast list. -/
def ScheduleOptimizationRequest.demandAt (r : ScheduleOptimizationRequest) (h : ℕ) : ℚ :=
  r.demand_forecast_m3h.getD h 0

/-- Indexed access into the electricity rate list. -/
def ScheduleOptimizationRequest.rateAt (r : ScheduleOptimizationRequest) (h : ℕ) : ℚ :=
  r.electricity_rates.getD h 0

/-- HourlySchedule record, pump_scheduling.py lines 45-52. -/
structure HourlySchedule where
  hour : ℕ
  pump_on : Bool
  tank_level_m3 : ℚ
  energy_cost : ℚ
  electricity_rate : ℚ
deriving DecidableEq

/-- Stored fields of the PumpSchedule model, pump_scheduling.py lines 55-91.
generated_at is filled from a datetime.now default factory; it is embedded
as the integer clock reading passed to the engine. -/
structure PumpSchedule where
  pump_id : String
  optimization_date : ℤ
  generated_at : ℤ
  hourly_schedule : List HourlySchedule
  total_runtime_hours : ℚ
  total_energy_kwh : ℚ
  total_cost : ℚ
  baseline_cost : ℚ
  min_tank_level_m3 : ℚ
  max_tank_level_m3 : ℚ
deriving DecidableEq

/-- Copy of a PumpSchedule with the generation timestamp replaced. -/
def PumpSchedule.withTimestamp (s : PumpSchedule) (t : ℤ) : PumpSchedule :=
  { s with generated_at := t }

/-- One step of the inner search of pass 1, pump_scheduling.py
lines 133-138: keep the incumbent if the candidate hour is already
mandatory or not strictly cheaper; best_rate always equals the rate of the
incumbent, and starts at the float inf so the first candidate wins. -/
def bestStep (r : ScheduleOptimizationRequest) (mandatory : Finset ℕ)
    (best : Option ℕ) (h : ℕ) : Option ℕ :=
  if h ∈ mandatory then best
  else
    match best with
    | none => some h
    | some b => if r.rateAt h < r.rateAt b then some h else best

/-- The inner search of pass 1, pump_scheduling.py lines 129-138: scan the
hours 0..hour in order for the cheapest not-yet-mandatory hour. -/
def findBestHour (r : ScheduleOptimizationRequest) (mandatory : Finset ℕ)
    (hour : ℕ) : Option ℕ :=
  (List.range (hour + 1)).foldl (bestStep r mandatory) none

/-- The re-simulation of pass 1, pump_scheduling.py lines 142-148: replay
hours 0..hour from the current tank level, adding the pump flow on mandatory
hours, subtracting demand, and capping at capacity each hour. -/
def resim (r : ScheduleOptimizationRequest) (mandatory : Finset ℕ) (hour : ℕ) : ℚ :=
  (List.range (hour + 1)).foldl
    (fun lvl h =>
      min ((if h ∈ mandatory then lvl + r.pump_flow_rate_m3h else lvl) - r.demandAt h)
        r.tank_capacity_m3)
    r.tank_current_level_m3

/-- Pass 1 of optimize_pump_schedule, pump_scheduling.py lines 118-148,
as a recursion over the remaining hours carrying the mandatory set and the
simulated level.  Each hour subtracts demand; on a breach of the minimum
level the cheapest not-yet-mandatory earlier hour is marked mandatory and
the simulation is replayed up to the current hour. -/
def pass1 (r : ScheduleOptimizationRequest) :
    List ℕ → Finset ℕ → ℚ → Finset ℕ × ℚ
  | [], mand, lvl => (mand, lvl)
  | hour :: rest, mand, lvl =>
    let lvl1 := lvl - r.demandAt hour
    if lvl1 < r.tank_min_level_m3 then
      match findBestHour r mand hour with
      | none => pass1 r rest mand lvl1
      | some b => pass1 r rest (insert b mand) (resim r (insert b mand) hour)
    else
      pass1 r rest mand lvl1

/-- The set of mandatory pumping hours identified by pass 1 over the 24
hours, starting from the current tank level. -/
def mandatory_hours (r : ScheduleOptimizationRequest) : Finset ℕ :=
  (pass1 r (List.range 24) ∅ r.tank_current_level_m3).1

/-- The schedule construction loop of optimize_pump_schedule,
pump_scheduling.py lines 160-186, over the remaining hours: returns the
hourly rows together with the accumulated runtime and cost.  The pump runs
exactly on mandatory hours; the level is capped at capacity when pumping,
demand is subtracted every hour, and the level is clamped at zero. -/
def buildSchedule (r : ScheduleOptimizationRequest) (mand : Finset ℕ) :
    List ℕ → ℚ → List HourlySchedule × ℚ × ℚ
  | [], _ => ([], 0, 0)
  | hour :: rest, lvl =>
    let lvl1 :=
      if hour ∈ mand then min (lvl + r.pump_flow_rate_m3h) r.tank_capacity_m3 else lvl
    let hour_cost : ℚ := if hour ∈ mand then r.pump_power_kw * r.rateAt hour else 0
    let lvl2 := max 0 (lvl1 - r.demandAt hour)
    let rest_result := buildSchedule r mand rest lvl2
    (⟨hour, decide (hour ∈ mand), pyRound lvl2 2, pyRound hour_cost 2, r.rateAt hour⟩
        :: rest_result.1,
      (if hour ∈ mand then 1 else 0) + rest_result.2.1,
      hour_cost + rest_result.2.2)

/-- optimize_pump_schedule, pump_scheduling.py lines 94-202. -/
def optimize_pump_schedule (request : ScheduleOptimizationRequest) (now : ℤ) :
    PumpSchedule :=
  let mand := mandatory_hours request
  let baseline_cost :=
    request.electricity_rates.foldl (fun acc rate => acc + request.pump_power_kw * rate) 0
  let built := buildSchedule request mand (List.range 24) request.tank_current_level_m3
  let hourly_schedules := built.1
  let total_runtime := built.2.1
  let total_cost := built.2.2
  let tank_levels := hourly_schedules.map HourlySchedule.tank_level_m3
  let total_energy := total_runtime * request.pump_power_kw
  { pump_id := request.pump_id
    optimization_date := request.optimization_date
    generated_at := now
    hourly_schedule := hourly_schedules
    total_runtime_hours := total_runtime
    total_energy_kwh := pyRound total_energy 2
    total_cost := pyRound total_cost 2
    baseline_cost := pyRound baseline_cost 2
    min_tank_level_m3 := tank_levels.foldl min (tank_levels.headD 0)
    max_tank_level_m3 := tank_levels.foldl max (tank_levels.headD 0) }

/-! ## Helper lemmas -/

theorem floor_le_rndHalfEven (q : ℚ) : ⌊q⌋ ≤ rndHalfEven q := by
  simp only [rndHalfEven]
  split_ifs <;> omega

theorem rndHalfEven_nonneg {q : ℚ} (h : 0 ≤ q) : 0 ≤ rndHalfEven q :=
  le_trans (Int.floor_nonneg.mpr h) (floor_le_rndHalfEven q)

theorem pyRound_nonneg {q : ℚ} (n : ℕ) (h : 0 ≤ q) : 0 ≤ pyRound q n := by
  unfold pyRound
  apply div_nonneg
  · exact_mod_cast rndHalfEven_nonneg (mul_nonneg h (by positivity))
  · positivity

theorem pyRound_zero (n : ℕ) : pyRound 0 n = 0 := by
  unfold pyRound rndHalfEven
  norm_num

/-! ## Claim theorems -/

/-- C1 counterexample: the valid input with system input 100 and billed
metered consumption 200 clamps real losses at 0, and then the sum of the
four stored components is 200, strictly above the system input volume, so
the claimed inequality in the direction at most system input is false. -/
theorem water_balance_sum_le_counterexample :
    (⟨100, 200, 0, 0, 0, 0, 0, 0, 0⟩ : WaterBalanceInput).Valid ∧
    ¬ ((calculate_water_balance ⟨100, 200, 0, 0, 0, 0, 0, 0, 0⟩).billed_authorized_consumption +
        (calculate_water_balance ⟨100, 200, 0, 0, 0, 0, 0, 0, 0⟩).unbilled_authorized_consumption +
        (calculate_water_balance ⟨100, 200, 0, 0, 0, 0, 0, 0, 0⟩).apparent_losses +
        (calculate_water_balance ⟨100, 200, 0, 0, 0, 0, 0, 0, 0⟩).real_losses ≤
        (100 : ℚ)) := by
  constructor
  · norm_num [WaterBalanceInput.Valid]
  · norm_num [calculate_water_balance]

/-- C1 (amended): for every valid input the four stored components sum to
at least the system input volume, with equality whenever real losses were
not clamped by the max(0, ...) floor, and real losses equal
max(0, input - billed authorized - unbilled authorized - apparent). -/
theorem water_balance_hierarchy (i : WaterBalanceInput) (hv : i.Valid) :
    i.system_input_volume ≤
      (calculate_water_balance i).billed_authorized_consumption +
      (calculate_water_balance i).unbilled_authorized_consumption +
      (calculate_water_balance i).apparent_losses +
      (calculate_water_balance i).real_losses ∧
    (0 ≤ i.system_input_volume -
        ((i.billed_metered_consumption + i.billed_unmetered_consumption) +
          (i.unbilled_metered_consumption + i.unbilled_unmetered_consumption)) -
        (i.unauthorized_consumption + i.meter_inaccuracies) →
      (calculate_water_balance i).billed_authorized_consumption +
      (calculate_water_balance i).unbilled_authorized_consumption +
      (calculate_water_balance i).apparent_losses +
      (calculate_water_balance i).real_losses = i.system_input_volume) ∧
    (calculate_water_balance i).real_losses =
      max 0 (i.system_input_volume -
        ((i.billed_metered_consumption + i.billed_unmetered_consumption) +
          (i.unbilled_metered_consumption + i.unbilled_unmetered_consumption)) -
        (i.unauthorized_consumption + i.meter_inaccuracies)) := by
  simp only [calculate_water_balance]
  refine ⟨?_, ?_, trivial⟩
  · have h := le_max_right (0 : ℚ)
      (i.system_input_volume -
        ((i.billed_metered_consumption + i.billed_unmetered_consumption) +
          (i.unbilled_metered_consumption + i.unbilled_unmetered_consumption)) -
        (i.unauthorized_consumption + i.meter_inaccuracies))
    linarith
  · intro hd
    rw [max_eq_right hd]
    ring

/-- C1 witness: the worked example of the spec, with input volume 10000 and
components summing to 8500, yields real losses 1500. -/
theorem water_balance_hierarchy_witness :
    (calculate_water_balance ⟨10000, 7000, 500, 200, 100, 300, 400, 0, 30⟩).real_losses = 1500 := by
  have h := (water_balance_hierarchy ⟨10000, 7000, 500, 200, 100, 300, 400, 0, 30⟩
    (by norm_num [WaterBalanceInput.Valid])).2.2
  rw [h]
  norm_num

/-- C6 counterexample: the claimed concrete UARL value is wrong;
(18 x 10 + 0.8 x 500) x 40 = 580 x 40 = 23200, not 21200. -/
theorem uarl_value_counterexample : uarl_lpd 10 500 40 ≠ 21200 := by
  norm_num [uarl_lpd]

/-- C6 (amended): the UARL, CARL and ILI used by analyze_leak_indicators
follow the stated formulas, the ILI is the float infinity (embedded as
none) when UARL is 0, and the concrete instance evaluates to 23200; the
returned infrastructure_leakage_index is that ILI rounded to 2 places. -/
theorem leak_ili_formulas :
    (∀ (L P : ℚ) (C : ℤ), uarl_lpd L C P = (18 * L + 0.8 * (C : ℚ)) * P) ∧
    (∀ a : ℚ, carl_lpd a = a * 24 * 1000) ∧
    (∀ c u : ℚ, u = 0 → leak_ili c u = none) ∧
    (∀ c u : ℚ, 0 < u → leak_ili c u = some (c / u)) ∧
    uarl_lpd 10 500 40 = 23200 ∧
    (∀ (zone : String) (vals : List ℚ) (pres pipe : ℚ) (conns now : ℤ), vals ≠ [] →
      ∃ a, analyze_leak_indicators zone vals pres pipe conns now = .ok a ∧
        a.infrastructure_leakage_index =
          (leak_ili (carl_lpd (vals.sum / (vals.length : ℚ))) (uarl_lpd pipe conns pres)).map
            (fun q => pyRound q 2)) := by
  refine ⟨fun L P C => rfl, fun a => rfl, ?_, ?_, by norm_num [uarl_lpd], ?_⟩
  · intro c u hu
    unfold leak_ili
    rw [if_neg (by rw [hu]; exact lt_irrefl 0)]
  · intro c u hu
    unfold leak_ili
    rw [if_pos hu]
  · intro zone vals pres pipe conns now hne
    unfold analyze_leak_indicators
    rw [if_neg (by simpa using hne)]
    refine ⟨_, rfl, ?_⟩
    rfl

/-- C6 witness: the clamping branches and the analyze linkage at concrete
inputs. -/
theorem leak_ili_formulas_witness :
    leak_ili 5 0 = none ∧ leak_ili 6 2 = some 3 ∧
    (∃ a, analyze_leak_indicators "Z1" [1] 40 10 500 0 = .ok a ∧
      a.infrastructure_leakage_index =
        (leak_ili (carl_lpd (([1] : List ℚ).sum / (([1] : List ℚ).length : ℚ)))
          (uarl_lpd 10 500 40)).map (fun q => pyRound q 2)) := by
  refine ⟨leak_ili_formulas.2.2.1 5 0 rfl, ?_, leak_ili_formulas.2.2.2.2.2 "Z1" [1] 40 10 500 0 (by simp)⟩
  rw [leak_ili_formulas.2.2.2.1 6 2 (by norm_num)]
  norm_num

/-- C7: the priority classification of determine_priority matches the
claimed case analysis for every risk score in the range 0 to 100 and every
trend. -/
theorem determine_priority_spec (risk : ℚ) (trend : Trend)
    (h0 : 0 ≤ risk) (h100 : risk ≤ 100) :
    (determine_priority risk trend = .critical ↔
      (75 ≤ risk ∨ (60 ≤ risk ∧ trend = .increasing))) ∧
    (determine_priority risk trend = .high ↔
      (¬(75 ≤ risk ∨ (60 ≤ risk ∧ trend = .increasing)) ∧ 50 ≤ risk)) ∧
    (determine_priority risk trend = .medium ↔
      (¬(75 ≤ risk ∨ (60 ≤ risk ∧ trend = .increasing)) ∧ ¬(50 ≤ risk) ∧ 30 ≤ risk)) ∧
    (determine_priority risk trend = .low ↔
      (¬(75 ≤ risk ∨ (60 ≤ risk ∧ trend = .increasing)) ∧ ¬(50 ≤ risk) ∧ ¬(30 ≤ risk))) := by
  unfold determine_priority
  split_ifs with h1 h2 h3 <;> simp_all

/-- C7 witness: a risk score of 80 is classified critical regardless of a
stable trend. -/
theorem determine_priority_spec_witness :
    determine_priority 80 Trend.stable = LeakPriority.critical :=
  ((determine_priority_spec 80 Trend.stable (by norm_num) (by norm_num)).1).mpr
    (Or.inl (by norm_num))

/-- C9: with minimum flow, average night flow and night-day ratio held
fixed, the confidence level of assess_confidence is monotone in the number
of service connections: fewer connections never yield a strictly higher
confidence level. -/
theorem mnf_confidence_monotone (mf anf ndr : ℚ) (c1 c2 : ℤ) (h : c2 ≤ c1) :
    (assess_confidence mf anf ndr c2).rank ≤ (assess_confidence mf anf ndr c1).rank := by
  simp only [assess_confidence]
  set a1 : ℤ := if c1 < 200 then 15 else if c1 < 500 then 5 else 0 with ha1
  set a2 : ℤ := if c2 < 200 then 15 else if c2 < 500 then 5 else 0 with ha2
  set pr : ℤ := if ndr > 0.4 then 20 else if ndr > 0.3 then 10 else 0 with hpr
  set pv : ℤ :=
    if (if mf > 0 then |anf - mf| / mf else 0) > 0.3 then 15
    else if (if mf > 0 then |anf - mf| / mf else 0) > 0.2 then 5
    else 0 with hpv
  have hp : a1 ≤ a2 := by
    rw [ha1, ha2]
    split_ifs <;> omega
  split_ifs <;> simp [Confidence.rank] <;> omega

/-- C9 witness: a system of 100 connections gets at most the confidence of
a system of 600 connections, all else equal. -/
theorem mnf_confidence_monotone_witness :
    (assess_confidence 1 1 0 100).rank ≤ (assess_confidence 1 1 0 600).rank :=
  mnf_confidence_monotone 1 1 0 600 100 (by norm_num)

theorem getD_take_of_lt (l : List ℚ) (n i : ℕ) (d : ℚ) (h : i < n) :
    (l.take n).getD i d = l.getD i d := by
  simp [List.getD_eq_getElem?_getD, List.getElem?_take, h]

/-- C3: analyze_minimum_night_flow fails on fewer than 24 hourly values
with the insufficient-data error; on 24 or more values the result depends
only on the first 24 values. -/
theorem mnf_length_guard :
    (∀ (l : List ℚ) (c : ℤ) (p u : ℚ), l.length < 24 →
        analyze_minimum_night_flow l c p u = .error .insufficientData) ∧
    (∀ (l : List ℚ) (c : ℤ) (p u : ℚ), 24 ≤ l.length →
        analyze_minimum_night_flow l c p u =
          analyze_minimum_night_flow (l.take 24) c p u) := by
  constructor
  · intro l c p u h
    unfold analyze_minimum_night_flow
    rw [if_pos h]
  · intro l c p u h
    have hlen : (l.take 24).length = 24 := by
      rw [List.length_take]
      omega
    unfold analyze_minimum_night_flow
    rw [if_neg (by omega), if_neg (by omega)]
    simp only [List.take_take, min_self]

/-- C3 witness: 23 values raise the error, and extra values beyond the
first 24 do not change the result. -/
theorem mnf_length_guard_witness :
    analyze_minimum_night_flow (List.replicate 23 1) 500 40 3 = .error .insufficientData ∧
    analyze_minimum_night_flow (List.replicate 25 1) 500 40 3 =
      analyze_minimum_night_flow ((List.replicate 25 1).take 24) 500 40 3 :=
  ⟨mnf_length_guard.1 (List.replicate 23 1) 500 40 3 (by simp),
   mnf_length_guard.2 (List.replicate 25 1) 500 40 3 (by simp)⟩

/-- C5 counterexample: with flow 1/10000 at hour 2, the stored
minimum_flow_m3h is round(1/10000, 3) = 0, not the raw window minimum
1/10000, so the claimed equality without rounding is false. -/
theorem mnf_min_flow_rounding_counterexample :
    (analyze_minimum_night_flow
        [1, 1, 1/10000, 1, 1, 1, 1, 1, 1, 1, 1, 1, 1, 1, 1, 1, 1, 1, 1, 1, 1, 1, 1, 1]
        500 40 3).toOption.map MNFResult.minimum_flow_m3h ≠
      some (min (([1, 1, 1/10000, 1, 1, 1, 1, 1, 1, 1, 1, 1, 1, 1, 1, 1, 1, 1, 1, 1, 1, 1,
          1, 1] : List ℚ).getD 2 0)
        (([1, 1, 1/10000, 1, 1, 1, 1, 1, 1, 1, 1, 1, 1, 1, 1, 1, 1, 1, 1, 1, 1, 1, 1,
          1] : List ℚ).getD 3 0)) := by
  have hmin : min ((1 : ℚ)/10000) 1 = 1/10000 := by
    rw [min_def]
    norm_num
  have hfl : ⌊(1 : ℚ)/10⌋ = 0 := by
    rw [Int.floor_eq_iff]
    norm_num
  have hpr : pyRound ((1 : ℚ)/10000) 3 = 0 := by
    have h1 : ((1 : ℚ)/10000) * 10 ^ 3 = 1/10 := by norm_num
    simp only [pyRound, rndHalfEven, h1, hfl]
    norm_num
  intro hcontra
  simp only [analyze_minimum_night_flow] at hcontra
  rw [if_neg (by norm_num)] at hcontra
  simp only [Except.toOption, Option.map, List.take, List.getD, List.get?,
    Option.getD_some, Option.some.injEq] at hcontra
  rw [hmin, hpr] at hcontra
  norm_num at hcontra

/-- C5 (amended): for at least 24 non-negative hourly flows the analysis
succeeds, mnf_hour is 2 or 3, the stored minimum flow is the minimum of
hours 2 and 3 rounded to 3 places, and a tie resolves to hour 2. -/
theorem mnf_window_selection (l : List ℚ) (c : ℤ) (p u : ℚ)
    (hlen : 24 ≤ l.length) (hnn : ∀ x ∈ l, 0 ≤ x) :
    ∃ r, analyze_minimum_night_flow l c p u = .ok r ∧
      (r.mnf_hour = 2 ∨ r.mnf_hour = 3) ∧
      r.minimum_flow_m3h = pyRound (min (l.getD 2 0) (l.getD 3 0)) 3 ∧
      (l.getD 2 0 = l.getD 3 0 → r.mnf_hour = 2) := by
  unfold analyze_minimum_night_flow
  rw [if_neg (by omega)]
  refine ⟨_, rfl, ?_, ?_, ?_⟩
  · dsimp only
    split_ifs <;> simp
  · dsimp only
    rw [getD_take_of_lt l 24 2 0 (by omega), getD_take_of_lt l 24 3 0 (by omega)]
  · intro hne2
    dsimp only
    rw [if_pos]
    rw [getD_take_of_lt l 24 2 0 (by omega), getD_take_of_lt l 24 3 0 (by omega), hne2]

/-- C5 witness: a constant series of 24 ones has mnf_hour 2 and stored
minimum flow round(1, 3) = 1. -/
theorem mnf_window_selection_witness :
    ∃ r, analyze_minimum_night_flow (List.replicate 24 1) 500 40 3 = .ok r ∧
      (r.mnf_hour = 2 ∨ r.mnf_hour = 3) ∧
      r.minimum_flow_m3h =
        pyRound (min ((List.replicate 24 (1 : ℚ)).getD 2 0) ((List.replicate 24 (1 : ℚ)).getD 3 0)) 3 ∧
      ((List.replicate 24 (1 : ℚ)).getD 2 0 = (List.replicate 24 (1 : ℚ)).getD 3 0 → r.mnf_hour = 2) :=
  mnf_window_selection (List.replicate 24 1) 500 40 3 (by simp)
    (fun x hx => by rw [List.eq_of_mem_replicate hx]; norm_num)

/-- C8: the efficiency rating of analyze_pump_efficiency is determined by
the ratio of wire-to-water to rated efficiency with the claimed thresholds,
and maintenance is recommended exactly when the ratio is below 0.80 or the
degradation exceeds 15 percent. -/
theorem pump_efficiency_rating_spec (i : PumpEfficiencyInput) (now : ℤ) (hv : i.Valid) :
    ((analyze_pump_efficiency i now).efficiency_rating = .excellent ↔
      0.95 ≤ efficiency_ratio_of i) ∧
    ((analyze_pump_efficiency i now).efficiency_rating = .good ↔
      0.85 ≤ efficiency_ratio_of i ∧ efficiency_ratio_of i < 0.95) ∧
    ((analyze_pump_efficiency i now).efficiency_rating = .fair ↔
      0.70 ≤ efficiency_ratio_of i ∧ efficiency_ratio_of i < 0.85) ∧
    ((analyze_pump_efficiency i now).efficiency_rating = .poor ↔
      efficiency_ratio_of i < 0.70) ∧
    ((analyze_pump_efficiency i now).maintenance_recommended = true ↔
      (efficiency_ratio_of i < 0.80 ∨ 15 < degradation_of i)) ∧
    efficiency_ratio_of i = wire_to_water_of i / i.rated_efficiency ∧
    degradation_of i = (i.rated_efficiency - wire_to_water_of i) / i.rated_efficiency * 100 := by
  simp only [analyze_pump_efficiency, decide_eq_true_eq]
  refine ⟨?_, ?_, ?_, ?_, trivial, rfl, rfl⟩ <;>
    (split_ifs with h1 h2 h3 <;> simp_all <;> intros <;> linarith)

/-- C8 witness: the rated-0.75 pump at flow 100, head 50, power 20 has
ratio 109/120 and is rated good without a maintenance flag. -/
theorem pump_efficiency_rating_spec_witness :
    (analyze_pump_efficiency ⟨"P1", 100, 50, 0, 20, 0.75⟩ 0).efficiency_rating =
      EfficiencyRating.good :=
  ((pump_efficiency_rating_spec ⟨"P1", 100, 50, 0, 20, 0.75⟩ 0
      (by norm_num [PumpEfficiencyInput.Valid])).2.1).mpr
    (by norm_num [efficiency_ratio_of, wire_to_water_of, hydraulic_power_kw_of, total_head_of])

/-- C10: analyze_leak_indicators never checks the documented minimum of 7
MNF values: any non-empty list yields a complete result, the regression
slope falls back to 0 with a stable trend when the regression denominator
is 0, and the empty list raises the division-by-zero error. -/
theorem leak_indicators_no_length_validation :
    (∀ (zone : String) (pres pipe : ℚ) (conns now : ℤ),
        analyze_leak_indicators zone [] pres pipe conns now = .error .zeroDivision) ∧
    (∀ (zone : String) (vals : List ℚ) (pres pipe : ℚ) (conns now : ℤ),
        vals ≠ [] → 0 < pipe →
        ∃ a, analyze_leak_indicators zone vals pres pipe conns now = .ok a) ∧
    (∀ (zone : String) (vals : List ℚ) (pres pipe : ℚ) (conns now : ℤ),
        vals ≠ [] → regression_denominator vals.length = 0 →
        ∃ a, analyze_leak_indicators zone vals pres pipe conns now = .ok a ∧
          a.mnf_trend = .stable ∧ a.mnf_trend_slope = 0) := by
  refine ⟨?_, ?_, ?_⟩
  · intro zone pres pipe conns now
    rfl
  · intro zone vals pres pipe conns now hne hp
    unfold analyze_leak_indicators
    rw [if_neg (by simpa using hne)]
    exact ⟨_, rfl⟩
  · intro zone vals pres pipe conns now hne hden
    unfold analyze_leak_indicators
    rw [if_neg (by simpa using hne)]
    refine ⟨_, rfl, ?_, ?_⟩ <;>
      simp only [hden, ne_eq, not_true_eq_false, if_false, reduceIte] <;>
      norm_num [pyRound_zero]

/-- C10 witness: the empty list errors, while the single-value list [5]
(far below the documented 7-value minimum) succeeds with a stable trend
and zero slope. -/
theorem leak_indicators_no_length_validation_witness :
    analyze_leak_indicators "Z1" [] 40 10 500 0 = .error .zeroDivision ∧
    (∃ a, analyze_leak_indicators "Z1" [5] 40 10 500 0 = .ok a) ∧
    (∃ a, analyze_leak_indicators "Z2" [5] 40 10 500 0 = .ok a ∧
      a.mnf_trend = .stable ∧ a.mnf_trend_slope = 0) :=
  ⟨leak_indicators_no_length_validation.1 "Z1" 40 10 500 0,
   leak_indicators_no_length_validation.2.1 "Z1" [5] 40 10 500 0 (by simp) (by norm_num),
   leak_indicators_no_length_validation.2.2 "Z2" [5] 40 10 500 0 (by simp)
     (by
        have hr : List.range 1 = [0] := rfl
        simp [regression_denominator, hr])⟩

/-- C4 counterexample: the efficiency engine stamps the result with the
wall-clock time through a datetime.now default factory, so two calls at
different clock readings do not return bit-identical records. -/
theorem engine_timestamp_counterexample :
    analyze_pump_efficiency ⟨"P1", 100, 50, 0, 20, 0.75⟩ 0 ≠
      analyze_pump_efficiency ⟨"P1", 100, 50, 0, 20, 0.75⟩ 1 := by
  intro h
  have ht := congrArg EfficiencyReport.analysis_timestamp h
  simp only [analyze_pump_efficiency] at ht
  exact absurd ht (by norm_num)

/-- C4 (amended): every engine is a pure function of its input record and
the clock reading; two calls with identical inputs agree on every field
except the timestamp fields of LeakAnalysis, EfficiencyReport and
PumpSchedule, which record the clock; the water balance and MNF results
carry no timestamp and are bit-identical across calls. -/
theorem engine_determinism_mod_timestamp :
    (∀ i : WaterBalanceInput, calculate_water_balance i = calculate_water_balance i) ∧
    (∀ (l : List ℚ) (c : ℤ) (p u : ℚ),
        analyze_minimum_night_flow l c p u = analyze_minimum_night_flow l c p u) ∧
    (∀ (zone : String) (vals : List ℚ) (pres pipe : ℚ) (conns t1 t2 : ℤ),
        (analyze_leak_indicators zone vals pres pipe conns t1).map
            (fun a => a.withTimestamp 0) =
          (analyze_leak_indicators zone vals pres pipe conns t2).map
            (fun a => a.withTimestamp 0)) ∧
    (∀ (i : PumpEfficiencyInput) (t1 t2 : ℤ),
        (analyze_pump_efficiency i t1).withTimestamp 0 =
          (analyze_pump_efficiency i t2).withTimestamp 0) ∧
    (∀ (r : ScheduleOptimizationRequest) (t1 t2 : ℤ),
        (optimize_pump_schedule r t1).withTimestamp 0 =
          (optimize_pump_schedule r t2).withTimestamp 0) := by
  refine ⟨fun i => rfl, fun l c p u => rfl, ?_, fun i t1 t2 => rfl, fun r t1 t2 => rfl⟩
  intro zone vals pres pipe conns t1 t2
  unfold analyze_leak_indicators
  split_ifs <;> rfl

theorem bestStep_cases (r : ScheduleOptimizationRequest) (mand : Finset ℕ)
    (best : Option ℕ) (h x : ℕ) (hx : bestStep r mand best h = some x) :
    best = some x ∨ x = h := by
  unfold bestStep at hx
  split_ifs at hx with hm
  · exact .inl hx
  · cases best with
    | none =>
      dsimp only at hx
      simp only [Option.some.injEq] at hx
      exact .inr hx.symm
    | some b =>
      dsimp only at hx
      split_ifs at hx with hr
      · simp only [Option.some.injEq] at hx
        exact .inr hx.symm
      · exact .inl hx

theorem foldl_bestStep_mem (r : ScheduleOptimizationRequest) (mand : Finset ℕ) :
    ∀ (l : List ℕ) (init : Option ℕ) (b : ℕ),
      l.foldl (bestStep r mand) init = some b → init = some b ∨ b ∈ l := by
  intro l
  induction l with
  | nil => intro init b hb; exact .inl hb
  | cons a t ih =>
    intro init b hb
    rw [List.foldl_cons] at hb
    rcases ih (bestStep r mand init a) b hb with h1 | h2
    · rcases bestStep_cases r mand init a b h1 with h3 | h3
      · exact .inl h3
      · exact .inr (by simp [h3])
    · exact .inr (List.mem_cons_of_mem a h2)

theorem findBestHour_lt (r : ScheduleOptimizationRequest) (mand : Finset ℕ)
    (hour b : ℕ) (hb : findBestHour r mand hour = some b) : b < hour + 1 := by
  unfold findBestHour at hb
  rcases foldl_bestStep_mem r mand (List.range (hour + 1)) none b hb with h | h
  · simp at h
  · exact List.mem_range.mp h

theorem pass1_subset (r : ScheduleOptimizationRequest) :
    ∀ (l : List ℕ) (mand : Finset ℕ) (lvl : ℚ) (n : ℕ),
      (∀ h ∈ l, h < n) → mand ⊆ Finset.range n →
      (pass1 r l mand lvl).1 ⊆ Finset.range n := by
  intro l
  induction l with
  | nil => intro mand lvl n _ hm; simpa [pass1] using hm
  | cons a t ih =>
    intro mand lvl n hl hm
    have ha : a < n := hl a (List.mem_cons_self a t)
    have ht : ∀ h ∈ t, h < n := fun h hh => hl h (List.mem_cons_of_mem a hh)
    simp only [pass1]
    split_ifs with hb
    · cases hfb : findBestHour r mand a with
      | none =>
        simp only [hfb]
        exact ih mand _ n ht hm
      | some b =>
        simp only [hfb]
        apply ih _ _ n ht
        refine Finset.insert_subset_iff.mpr ⟨?_, hm⟩
        have hba := findBestHour_lt r mand a b hfb
        exact Finset.mem_range.mpr (by omega)
    · exact ih mand _ n ht hm

theorem mandatory_hours_subset (r : ScheduleOptimizationRequest) :
    mandatory_hours r ⊆ Finset.range 24 :=
  pass1_subset r (List.range 24) ∅ r.tank_current_level_m3 24
    (fun h hh => List.mem_range.mp hh) (Finset.empty_subset _)

theorem buildSchedule_map_hour (r : ScheduleOptimizationRequest) (mand : Finset ℕ) :
    ∀ (l : List ℕ) (lvl : ℚ),
      ((buildSchedule r mand l lvl).1).map HourlySchedule.hour = l := by
  intro l
  induction l with
  | nil => intro lvl; rfl
  | cons a t ih =>
    intro lvl
    simp only [buildSchedule, List.map_cons]
    exact congrArg (a :: ·) (ih _)

theorem buildSchedule_level_nonneg (r : ScheduleOptimizationRequest) (mand : Finset ℕ) :
    ∀ (l : List ℕ) (lvl : ℚ) (s : HourlySchedule),
      s ∈ (buildSchedule r mand l lvl).1 → 0 ≤ s.tank_level_m3 := by
  intro l
  induction l with
  | nil => intro lvl s hs; simp [buildSchedule] at hs
  | cons a t ih =>
    intro lvl s hs
    simp only [buildSchedule, List.mem_cons] at hs
    rcases hs with hs | hs
    · rw [hs]
      exact pyRound_nonneg 2 (le_max_left 0 _)
    · exact ih _ s hs

theorem buildSchedule_runtime (r : ScheduleOptimizationRequest) (mand : Finset ℕ) :
    ∀ (l : List ℕ) (lvl : ℚ),
      (buildSchedule r mand l lvl).2.1 =
        ((l.countP (fun h => decide (h ∈ mand)) : ℕ) : ℚ) := by
  intro l
  induction l with
  | nil => intro lvl; simp [buildSchedule]
  | cons a t ih =>
    intro lvl
    simp only [buildSchedule, List.countP_cons]
    rw [ih]
    by_cases hm : a ∈ mand <;> simp [hm] <;> push_cast <;> ring

theorem buildSchedule_countP (r : ScheduleOptimizationRequest) (mand : Finset ℕ) :
    ∀ (l : List ℕ) (lvl : ℚ),
      ((buildSchedule r mand l lvl).1).countP HourlySchedule.pump_on =
        l.countP (fun h => decide (h ∈ mand)) := by
  intro l
  induction l with
  | nil => intro lvl; rfl
  | cons a t ih =>
    intro lvl
    simp only [buildSchedule, List.countP_cons]
    rw [ih]

theorem countP_eq_card_of_nodup :
    ∀ (l : List ℕ) (s : Finset ℕ), l.Nodup → (∀ x ∈ s, x ∈ l) →
      l.countP (fun h => decide (h ∈ s)) = s.card := by
  intro l
  induction l with
  | nil =>
    intro s _ hs
    have hse : s = ∅ := Finset.eq_empty_of_forall_not_mem (fun x hx => by simpa using hs x hx)
    simp [hse]
  | cons a t ih =>
    intro s hnd hs
    rcases List.nodup_cons.mp hnd with ⟨hat, hts⟩
    rw [List.countP_cons]
    by_cases ha : a ∈ s
    · have hsub : ∀ x ∈ s.erase a, x ∈ t := by
        intro x hx
        rcases Finset.mem_erase.mp hx with ⟨hxa, hxs⟩
        rcases List.mem_cons.mp (hs x hxs) with h | h
        · exact absurd h hxa
        · exact h
      have hcong : t.countP (fun h => decide (h ∈ s)) =
          t.countP (fun h => decide (h ∈ s.erase a)) := by
        apply List.countP_congr
        intro x hx
        have hxa : x ≠ a := fun he => hat (he ▸ hx)
        simp [Finset.mem_erase, hxa]
      have hpos : 0 < s.card := Finset.card_pos.mpr ⟨a, ha⟩
      rw [hcong, ih (s.erase a) hts hsub, Finset.card_erase_of_mem ha]
      simp [ha]
      omega
    · have hsub : ∀ x ∈ s, x ∈ t := by
        intro x hx
        rcases List.mem_cons.mp (hs x hx) with h | h
        · exact absurd (h ▸ hx) ha
        · exact h
      rw [ih s hts hsub]
      simp [ha]

theorem mandatory_count (r : ScheduleOptimizationRequest) :
    (List.range 24).countP (fun h => decide (h ∈ mandatory_hours r)) =
      (mandatory_hours r).card :=
  countP_eq_card_of_nodup (List.range 24) (mandatory_hours r) (List.nodup_range 24)
    (fun x hx => List.mem_range.mpr (Finset.mem_range.mp (mandatory_hours_subset r hx)))

/-- C2: the optimized schedule always has 24 rows for hours 0..23 in
order; the total runtime equals the number of rows with the pump on, which
equals the number of mandatory hours found in pass 1; the total energy is
runtime times pump power rounded to 2 places; and the tank level of every row
is non-negative. -/
theorem optimize_pump_schedule_invariants (r : ScheduleOptimizationRequest) (now : ℤ)
    (hv : r.Valid) :
    (optimize_pump_schedule r now).hourly_schedule.length = 24 ∧
    (optimize_pump_schedule r now).hourly_schedule.map HourlySchedule.hour = List.range 24 ∧
    (optimize_pump_schedule r now).total_runtime_hours =
      (((optimize_pump_schedule r now).hourly_schedule.countP HourlySchedule.pump_on : ℕ) : ℚ) ∧
    (optimize_pump_schedule r now).total_runtime_hours = ((mandatory_hours r).card : ℚ) ∧
    (optimize_pump_schedule r now).total_energy_kwh =
      pyRound ((optimize_pump_schedule r now).total_runtime_hours * r.pump_power_kw) 2 ∧
    (∀ s ∈ (optimize_pump_schedule r now).hourly_schedule, 0 ≤ s.tank_level_m3) := by
  have hsch : (optimize_pump_schedule r now).hourly_schedule =
      (buildSchedule r (mandatory_hours r) (List.range 24) r.tank_current_level_m3).1 := rfl
  have hrt : (optimize_pump_schedule r now).total_runtime_hours =
      (buildSchedule r (mandatory_hours r) (List.range 24) r.tank_current_level_m3).2.1 := rfl
  refine ⟨?_, ?_, ?_, ?_, rfl, ?_⟩
  · rw [hsch]
    have h1 := congrArg List.length
      (buildSchedule_map_hour r (mandatory_hours r) (List.range 24) r.tank_current_level_m3)
    rw [List.length_map, List.length_range] at h1
    exact h1
  · rw [hsch]
    exact buildSchedule_map_hour r (mandatory_hours r) (List.range 24) r.tank_current_level_m3
  · rw [hsch, hrt, buildSchedule_runtime, buildSchedule_countP]
  · rw [hrt, buildSchedule_runtime, mandatory_count]
  · rw [hsch]
    intro s hs
    exact buildSchedule_level_nonneg r (mandatory_hours r) (List.range 24)
      r.tank_current_level_m3 s hs

/-- C2 witness: a concrete valid request produces a 24-row schedule. -/
theorem optimize_pump_schedule_invariants_witness :
    (optimize_pump_schedule
        ⟨"P1", 100, 50, 10, 20, 5, List.replicate 24 5, List.replicate 24 1, 0⟩
        0).hourly_schedule.length = 24 :=
  (optimize_pump_schedule_invariants
      ⟨"P1", 100, 50, 10, 20, 5, List.replicate 24 5, List.replicate 24 1, 0⟩ 0
      (by norm_num [ScheduleOptimizationRequest.Valid])).1

end RWA
